import Mathlib

/-!
Shallow embedding of the hospital routing engine (src/Algo.py): specialty
mapping, capability predicates, specialist load with a demand overlay,
hard filters, scoring, stable selection, and the overlay commit.
Numeric CSV fields are modelled as `Option Rat`: `none` stands for a missing
or unparseable value, which the code coerces to 0.0 via `_num`.
-/

/-- Lowercased character list of a string, modelling Python `s.lower()`. -/
def lowerStr (s : String) : List Char := s.data.map Char.toLower

/-- Does the character list start with the given needle. -/
def listStartsWith : List Char → List Char → Bool
  | [], _ => true
  | _ :: _, [] => false
  | a :: as, b :: bs => a = b && listStartsWith as bs

/-- Contiguous-substring test, modelling Python `needle in hay`. -/
def listHasSub (needle : List Char) : List Char → Bool
  | [] => needle.isEmpty
  | c :: cs => listStartsWith needle (c :: cs) || listHasSub needle cs

/-- Keyword test on an already lowercased character list. -/
def hasKw (kw : String) (cs : List Char) : Bool := listHasSub kw.data cs

/-- Python `s.strip()`: drop whitespace from both ends. -/
def stripChars (cs : List Char) : List Char :=
  ((cs.dropWhile Char.isWhitespace).reverse.dropWhile Char.isWhitespace).reverse

/-- Python `(v or "").strip().lower()` on an optional string field. -/
def stripLower (v : Option String) : List Char :=
  (stripChars (v.getD "").data).map Char.toLower

/-- Python `_num`: float(v) with missing/unparseable coerced to 0.0. -/
def num (v : Option Rat) : Rat := v.getD 0

/-- The canonical specialty names, `SPECIALTY_NAMES` in the source. -/
def SPECIALTY_NAMES : List String := ["Cardiology", "Trauma", "Neurology"]

/-- One hospital CSV row. String fields keep raw text; numeric fields hold
the parsed value or `none`. Per-specialty columns are looked up by the
canonical specialty name, as the source computes the column name from it. -/
structure Row where
  hospital_name : String
  ed_diversion_sim : Option String
  trauma_level : Option String
  stroke_center_level : Option String
  cardiac_cath_lab : Option String
  pediatric_specialty : Option String
  available_icu_beds_sim : Option Rat
  available_ed_beds_sim : Option Rat
  er_wait_min_sim : Option Rat
  on_call_ed_physicians_sim : Option Rat
  ambulance_travel_time_min_sim : Option Rat
  latitude : Option Rat
  longitude : Option Rat
  specialists : String → Option Rat
  specialist_patients : String → Option Rat

/-- The NLP-extracted patient request. `required_specialties = some l` models
the key holding a list/tuple; anything else falls back to the singular field. -/
structure Nlp where
  acuity_level : Option Int
  required_specialty : Option String
  required_specialties : Option (List String)

/-- One hospital's entry of the demand overlay. The per-specialty delta is a
total map defaulting to 0, modelling `dict.get(spec, 0)`. -/
structure OverlayEntry where
  ed_beds_delta : Int
  icu_beds_delta : Int
  specialist_patients_delta : String → Int

/-- The fresh entry `send_patient` installs via `setdefault`. -/
def emptyEntry : OverlayEntry :=
  { ed_beds_delta := 0, icu_beds_delta := 0, specialist_patients_delta := fun _ => 0 }

/-- The process-wide `_sent_patient_overlay` dictionary. -/
def Overlay : Type := String → Option OverlayEntry

/-- `_sent_patient_overlay.get(name, empty)`. -/
def overlayGet (o : Overlay) (n : String) : OverlayEntry := (o n).getD emptyEntry

/-- The overlay at process start: no hospital has an entry. -/
def emptyOverlay : Overlay := fun _ => none

/-- `_nlp_specialty_to_column`: map the NLP specialty to a CSV specialty name. -/
def nlp_specialty_to_column (specialty : Option String) : Option String :=
  match specialty with
  | none => none
  | some s =>
    if s = "" || lowerStr s = "general".data then none
    else
      let cs := lowerStr s
      if hasKw "cardiac" cs || hasKw "stemi" cs || hasKw "heart" cs then some "Cardiology"
      else if hasKw "trauma" cs then some "Trauma"
      else if hasKw "stroke" cs || hasKw "neuro" cs then some "Neurology"
      else none

/-- `_get_required_specialties_from_nlp`. -/
def get_required_specialties_from_nlp (nlp : Nlp) : List String :=
  match nlp.required_specialties with
  | some specs => (specs.map (fun x => nlp_specialty_to_column (some x))).filterMap id
  | none =>
    match nlp_specialty_to_column nlp.required_specialty with
    | some one => [one]
    | none => []

/-- `_get_specialist_load`: (csv specialist patients + overlay delta, floored
at 0) / specialists; `none` when the specialty is unset, not canonical, or the
hospital has no positive specialist count. -/
def get_specialist_load (o : Overlay) (row : Row) (specialty : Option String)
    (hospital_name : String) : Option Rat :=
  match specialty with
  | none => none
  | some s =>
    if s ∈ SPECIALTY_NAMES then
      let num_doctors := num (row.specialists s)
      if num_doctors ≤ 0 then none
      else
        let csv_patients := num (row.specialist_patients s)
        let d := (overlayGet o hospital_name).specialist_patients_delta s
        some (max 0 (csv_patients + (d : Rat)) / num_doctors)
    else none

/-- `_has_specialist_for`. -/
def has_specialist_for (o : Overlay) (row : Row) (specialty : Option String)
    (hospital_name : String) : Bool :=
  get_specialist_load o row specialty hospital_name ≠ none

/-- `_has_trauma_capability`. -/
def has_trauma_capability (trauma_level : Option String) : Bool :=
  match trauma_level with
  | none => false
  | some s =>
    if s = "" || s = "N/A" then false
    else
      match s.data.map Char.toUpper with
      | [] => false
      | c :: _ => c = 'I'

/-- `_has_stroke_capability`. -/
def has_stroke_capability (stroke_level : Option String) : Bool :=
  match stroke_level with
  | none => false
  | some s =>
    if s = "" then false
    else
      let u := lowerStr s
      if hasKw "none" u && !hasKw "capable" u then false
      else hasKw "primary" u || hasKw "comprehensive" u || hasKw "capable" u

/-- `_has_cardiac_capability`. -/
def has_cardiac_capability (cardiac_cath_lab : Option String) : Bool :=
  stripLower cardiac_cath_lab = "yes".data

/-- `_has_pediatric_capability`. -/
def has_pediatric_capability (pediatric_specialty : Option String) : Bool :=
  match pediatric_specialty with
  | none => false
  | some s =>
    if s = "" then false
    else
      let u := lowerStr s
      hasKw "yes" u || hasKw "limited" u || hasKw "nicu" u

/-- `_specialty_requires_capability`: which capability the requested specialty
implies for the hard filter. -/
def specialty_requires_capability (specialty : Option String) : Option String :=
  match specialty with
  | none => none
  | some s =>
    if s = "" || lowerStr s = "general".data then none
    else
      let cs := lowerStr s
      if hasKw "trauma" cs then some "trauma"
      else if hasKw "stroke" cs then some "stroke"
      else if hasKw "cardiac" cs || hasKw "stemi" cs || hasKw "heart" cs then some "cardiac"
      else if hasKw "pediatric" cs || hasKw "peds" cs then some "pediatric"
      else none

/-- `_hospital_has_required_capability`. -/
def hospital_has_required_capability (row : Row) (required_cap : Option String) : Bool :=
  match required_cap with
  | none => true
  | some c =>
    if c = "trauma" then has_trauma_capability row.trauma_level
    else if c = "stroke" then has_stroke_capability row.stroke_center_level
    else if c = "cardiac" then has_cardiac_capability row.cardiac_cath_lab
    else if c = "pediatric" then has_pediatric_capability row.pediatric_specialty
    else true

/-- Python `int(nlp_data.get("acuity_level", 3))`. -/
def getAcuity (nlp : Nlp) : Int := nlp.acuity_level.getD 3

/-- The keep test of the hard-filter loop body: a row is appended exactly when
none of the three `continue` branches fires. -/
def passes_hard_filters (o : Overlay) (nlp : Nlp) (row : Row) : Bool :=
  let acuity := getAcuity nlp
  let required_cap := specialty_requires_capability nlp.required_specialty
  let is_critical := acuity ≤ 2
  if stripLower row.ed_diversion_sim = "yes".data then false
  else if !hospital_has_required_capability row required_cap then false
  else if is_critical then
    let icu_avail := num row.available_icu_beds_sim
        + ((overlayGet o row.hospital_name).icu_beds_delta : Rat)
    if icu_avail ≤ 0 then false else true
  else true

/-- `_apply_hard_filters`: the loop appends, in order, every row that passes. -/
def apply_hard_filters (o : Overlay) (rows : List Row) (nlp : Nlp) : List Row :=
  rows.filter (passes_hard_filters o nlp)

/-- `_score_hospital`: lower score is better. -/
def score_hospital (o : Overlay) (row : Row) (eta_minutes : Rat) (nlp : Nlp) : Rat :=
  let acuity := getAcuity nlp
  let er_wait := num row.er_wait_min_sim
  let ed_beds_raw := num row.available_ed_beds_sim
  let ov := overlayGet o row.hospital_name
  let available_ed_beds := max 0 (ed_beds_raw + (ov.ed_beds_delta : Rat))
  let physicians := num row.on_call_ed_physicians_sim
  let icu_avail := max 0 (num row.available_icu_beds_sim + (ov.icu_beds_delta : Rat))
  let score0 := 1 * eta_minutes + (1 / 2) * er_wait
  let score1 := score0 - 2 * available_ed_beds
  let score2 := score1 - (3 / 10) * physicians
  let score3 := if acuity ≤ 2 ∧ icu_avail ≤ 1 then score2 + 50 else score2
  match nlp_specialty_to_column nlp.required_specialty with
  | none => score3
  | some sp =>
    match get_specialist_load o row (some sp) row.hospital_name with
    | none => if acuity ≤ 2 then score3 + 500 else score3
    | some load => score3 + 20 * load

/-- `send_patient`: commit one routed patient into the overlay. -/
def send_patient (o : Overlay) (hospital_id : Option String) (nlp : Nlp) : Overlay :=
  match hospital_id with
  | none => o
  | some hid =>
    if hid = "" then o
    else
      let e0 := (o hid).getD emptyEntry
      let e1 := { e0 with ed_beds_delta := e0.ed_beds_delta - 1 }
      let acuity := getAcuity nlp
      let e2 := if acuity ≤ 2 then { e1 with icu_beds_delta := e1.icu_beds_delta - 1 } else e1
      let d3 := (get_required_specialties_from_nlp nlp).foldl
        (fun (d : String → Int) sp => fun s => if s = sp then d s + 1 else d s)
        e2.specialist_patients_delta
      let e3 := { e2 with specialist_patients_delta := d3 }
      fun n => if n = hid then some e3 else o n

/-- Python `round(q, ndigits)` works half-to-even; this is the integer step. -/
def roundHalfEven (q : Rat) : Int :=
  let f := q.floor
  let frac := q - (f : Rat)
  if frac < 1 / 2 then f
  else if 1 / 2 < frac then f + 1
  else if f % 2 = 0 then f else f + 1

/-- `round(q, 2)`. -/
def round2 (q : Rat) : Rat := (roundHalfEven (q * 100) : Rat) / 100

/-- `round(q, 1)`. -/
def round1 (q : Rat) : Rat := (roundHalfEven (q * 10) : Rat) / 10

/-- One element of the `scored` list: the tuple `(score, row, eta_min)`. -/
structure Scored where
  score : Rat
  row : Row
  eta : Rat

/-- Stable insertion for sorting by score: an element moves left past another
only when its score is strictly smaller, as Python's stable `list.sort`. -/
def insertScored (x : Scored) : List Scored → List Scored
  | [] => [x]
  | y :: ys => if x.score ≤ y.score then x :: y :: ys else y :: insertScored x ys

/-- Stable sort by score, modelling `scored.sort(key=lambda x: x[0])`. -/
def sortScored : List Scored → List Scored
  | [] => []
  | x :: xs => insertScored x (sortScored xs)

/-- ETA for one row: the API dictionary with default 999 when the batched
fetch succeeded, else the CSV fallback column. -/
def etaFor (api : Option (String → Option Rat)) (row : Row) : Rat :=
  match api with
  | none => num row.ambulance_travel_time_min_sim
  | some e => (e row.hospital_name).getD 999

/-- Build the `(score, row, eta_min)` tuple for one filtered row. -/
def mkScored (o : Overlay) (nlp : Nlp) (api : Option (String → Option Rat))
    (row : Row) : Scored :=
  let eta := etaFor api row
  { score := score_hospital o row eta nlp, row := row, eta := eta }

/-- The `scored` list built over the filtered rows, in order. -/
def scoredOf (o : Overlay) (nlp : Nlp) (api : Option (String → Option Rat))
    (filtered : List Row) : List Scored :=
  filtered.map (mkScored o nlp api)

/-- The dictionary `get_optimal_hospital` returns. -/
structure RoutingResult where
  hospital_id : String
  hospital_name : String
  routing_score : Rat
  eta_minutes : Rat
  latitude : Rat
  longitude : Rat
  available_ed_beds : Rat
  available_icu_beds : Rat
  er_wait_min : Rat
  trauma_level : Option String
  stroke_center_level : Option String
  cardiac_cath_lab : Option String
  specialist_ready : Bool
  specialist_load : Option Rat
deriving DecidableEq

/-- Assemble the result dictionary for the winning tuple. -/
def mkRoutingResult (o : Overlay) (nlp : Nlp) (best : Scored) : RoutingResult :=
  let required_specialty := nlp_specialty_to_column nlp.required_specialty
  let specialist_load :=
    match required_specialty with
    | some sp => get_specialist_load o best.row (some sp) best.row.hospital_name
    | none => none
  let specialist_ready :=
    match required_specialty with
    | some sp => has_specialist_for o best.row (some sp) best.row.hospital_name
    | none => true
  { hospital_id := best.row.hospital_name
    hospital_name := best.row.hospital_name
    routing_score := round2 best.score
    eta_minutes := round1 best.eta
    latitude := num best.row.latitude
    longitude := num best.row.longitude
    available_ed_beds := num best.row.available_ed_beds_sim
    available_icu_beds := num best.row.available_icu_beds_sim
    er_wait_min := num best.row.er_wait_min_sim
    trauma_level := best.row.trauma_level
    stroke_center_level := best.row.stroke_center_level
    cardiac_cath_lab := best.row.cardiac_cath_lab
    specialist_ready := specialist_ready
    specialist_load := specialist_load.map round2 }

/-- `get_optimal_hospital`: filter, score with the fetched or fallback ETA,
stable-sort by score and return the head, or `none` when nothing survives.
The hospital collection and the travel-time service result are the two
external collaborators, passed in explicitly. -/
def get_optimal_hospital (o : Overlay) (rows : List Row) (nlp : Nlp)
    (api : Option (String → Option Rat)) : Option RoutingResult :=
  match apply_hard_filters o rows nlp with
  | [] => none
  | f :: fs =>
    match sortScored (scoredOf o nlp api (f :: fs)) with
    | [] => none
    | best :: _ => some (mkRoutingResult o nlp best)

/-! ## Helper lemmas -/

theorem foldl_bump_apply (l : List String) (d : String → Int) (s : String) :
    (l.foldl (fun (d : String → Int) sp => fun x => if x = sp then d x + 1 else d x) d) s
      = d s + l.count s := by
  induction l generalizing d with
  | nil => simp
  | cons a l ih =>
    simp only [List.foldl_cons, ih, List.count_cons]
    by_cases hsa : s = a
    · subst hsa; simp; omega
    · simp [hsa, Ne.symm hsa]

theorem nlp_specialty_to_column_canonical (x : Option String) (s : String)
    (hx : nlp_specialty_to_column x = some s) : s ∈ SPECIALTY_NAMES := by
  cases x with
  | none => simp [nlp_specialty_to_column] at hx
  | some v =>
    simp only [nlp_specialty_to_column] at hx
    split at hx
    · exact absurd hx (by simp)
    · split at hx
      · simp [SPECIALTY_NAMES, ← Option.some_inj.mp hx]
      · split at hx
        · simp [SPECIALTY_NAMES, ← Option.some_inj.mp hx]
        · split at hx
          · simp [SPECIALTY_NAMES, ← Option.some_inj.mp hx]
          · exact absurd hx (by simp)

theorem get_required_specialties_canonical (nlp : Nlp) :
    ∀ s ∈ get_required_specialties_from_nlp nlp, s ∈ SPECIALTY_NAMES := by
  intro s hs
  unfold get_required_specialties_from_nlp at hs
  cases hspecs : nlp.required_specialties with
  | some l =>
    rw [hspecs] at hs
    simp only [List.filterMap_map, List.mem_filterMap] at hs
    obtain ⟨x, _, hx⟩ := hs
    exact nlp_specialty_to_column_canonical (some x) s hx
  | none =>
    rw [hspecs] at hs
    cases hcol : nlp_specialty_to_column nlp.required_specialty with
    | none => rw [hcol] at hs; simp at hs
    | some one =>
      rw [hcol] at hs
      simp only [List.mem_singleton] at hs
      exact hs ▸ nlp_specialty_to_column_canonical nlp.required_specialty one hcol

theorem score_hospital_eq_formula (o : Overlay) (row : Row) (eta : Rat) (nlp : Nlp) :
    score_hospital o row eta nlp =
      1 * eta + (1 / 2) * num row.er_wait_min_sim
        - 2 * max 0 (num row.available_ed_beds_sim
            + ((overlayGet o row.hospital_name).ed_beds_delta : Rat))
        - (3 / 10) * num row.on_call_ed_physicians_sim
        + (if getAcuity nlp ≤ 2 ∧
              num row.available_icu_beds_sim
                + ((overlayGet o row.hospital_name).icu_beds_delta : Rat) ≤ 1
           then 50 else 0)
        + (match nlp_specialty_to_column nlp.required_specialty with
           | none => 0
           | some sp =>
             match get_specialist_load o row (some sp) row.hospital_name with
             | none => if getAcuity nlp ≤ 2 then 500 else 0
             | some load => 20 * load) := by
  unfold score_hospital
  dsimp only
  have hmax : (max 0 (num row.available_icu_beds_sim
      + ((overlayGet o row.hospital_name).icu_beds_delta : Rat)) ≤ 1)
      = (num row.available_icu_beds_sim
          + ((overlayGet o row.hospital_name).icu_beds_delta : Rat) ≤ 1) := by
    apply propext
    rw [max_le_iff]
    exact and_iff_right (by norm_num)
  simp only [hmax]
  cases hcol : nlp_specialty_to_column nlp.required_specialty with
  | none => simp only [hcol]; split_ifs <;> ring
  | some sp =>
    cases hload : get_specialist_load o row (some sp) row.hospital_name with
    | none => simp only [hcol, hload]; split_ifs <;> ring
    | some load => simp only [hcol, hload]; split_ifs <;> ring

/-! ## Claim C1: the scoring formula -/

/-- C1: for every eligible hospital record, ETA and request, the score equals
1.0 times eta plus 0.5 times ER wait, minus 2.0 times the zero-floored
overlay-adjusted ED beds, minus 0.3 times on-call physicians, plus 50 when
acuity is at most 2 and the overlay-adjusted ICU beds are at most 1, plus 500
when a canonical specialty is required with null specialist load and acuity at
most 2 (no penalty otherwise), plus 20 times the load when it is non-null;
missing or unparseable numeric fields coerce to 0 by construction of `num`. -/
theorem claim_score_formula (o : Overlay) (row : Row) (eta : Rat) (nlp : Nlp) :
    score_hospital o row eta nlp =
      1 * eta + (1 / 2) * num row.er_wait_min_sim
        - 2 * max 0 (num row.available_ed_beds_sim
            + ((overlayGet o row.hospital_name).ed_beds_delta : Rat))
        - (3 / 10) * num row.on_call_ed_physicians_sim
        + (if getAcuity nlp ≤ 2 ∧
              num row.available_icu_beds_sim
                + ((overlayGet o row.hospital_name).icu_beds_delta : Rat) ≤ 1
           then 50 else 0)
        + (match nlp_specialty_to_column nlp.required_specialty with
           | none => 0
           | some sp =>
             match get_specialist_load o row (some sp) row.hospital_name with
             | none => if getAcuity nlp ≤ 2 then 500 else 0
             | some load => 20 * load) :=
  score_hospital_eq_formula o row eta nlp

/-! ## Claim C2: the hard filter -/

/-- Exclusion as claim C2 words it: the diversion flag reads yes after
trimming and lowercasing, or the capability implied by the requested
specialty is absent, or the request is critical and the overlay-adjusted
ICU beds are at most zero. -/
def excludedPerClaim (o : Overlay) (nlp : Nlp) (row : Row) : Bool :=
  decide (stripLower row.ed_diversion_sim = "yes".data)
  || !hospital_has_required_capability row
        (specialty_requires_capability nlp.required_specialty)
  || (decide (getAcuity nlp ≤ 2)
      && decide (num row.available_icu_beds_sim
          + ((overlayGet o row.hospital_name).icu_beds_delta : Rat) ≤ 0))

theorem passes_iff_not_excluded (o : Overlay) (nlp : Nlp) (row : Row) :
    passes_hard_filters o nlp row = !excludedPerClaim o nlp row := by
  unfold passes_hard_filters excludedPerClaim
  by_cases hdiv : stripLower row.ed_diversion_sim = "yes".data
  · simp [hdiv]
  · by_cases hcap : hospital_has_required_capability row
        (specialty_requires_capability nlp.required_specialty) = true
    · by_cases hcrit : getAcuity nlp ≤ 2
      · by_cases hicu : num row.available_icu_beds_sim
            + ((overlayGet o row.hospital_name).icu_beds_delta : Rat) ≤ 0
        · simp [hdiv, hcap, hcrit, hicu]
        · simp [hdiv, hcap, hcrit, hicu]
      · simp [hdiv, hcap, hcrit]
    · simp [hdiv, hcap]

/-- C2: the hard filter returns exactly the in-order subsequence of rows that
are not excluded, where exclusion is diversion flag yes (case-insensitive,
trimmed), or a missing implied capability, or a critical request with
overlay-adjusted ICU beds at most zero; in particular a diverted hospital
never appears in the eligible set. -/
theorem claim_hard_filters (o : Overlay) (rows : List Row) (nlp : Nlp) :
    apply_hard_filters o rows nlp = rows.filter (fun r => !excludedPerClaim o nlp r) ∧
    ∀ r ∈ apply_hard_filters o rows nlp, stripLower r.ed_diversion_sim ≠ "yes".data := by
  have hfil : apply_hard_filters o rows nlp
      = rows.filter (fun r => !excludedPerClaim o nlp r) := by
    unfold apply_hard_filters
    exact List.filter_congr (fun r _ => passes_iff_not_excluded o nlp r)
  refine ⟨hfil, ?_⟩
  intro r hr
  rw [hfil, List.mem_filter] at hr
  have hx := hr.2
  unfold excludedPerClaim at hx
  intro hdiv
  simp [hdiv] at hx

/-! ## Claim C3: selection -/

theorem insertScored_ne_nil (x : Scored) (l : List Scored) : insertScored x l ≠ [] := by
  cases l with
  | nil => simp [insertScored]
  | cons y ys =>
    unfold insertScored
    split <;> simp

theorem sortScored_ne_nil (l : List Scored) (h : l ≠ []) : sortScored l ≠ [] := by
  cases l with
  | nil => exact absurd rfl h
  | cons x xs => exact insertScored_ne_nil x (sortScored xs)

theorem insertScored_head (x y : Scored) (t : List Scored) :
    (insertScored x (y :: t)).head? = some (if x.score ≤ y.score then x else y) := by
  unfold insertScored
  split <;> simp_all

/-- Head of the stable sort: the first element attaining the minimal score. -/
theorem sortScored_head_spec (l : List Scored) (hne : l ≠ []) :
    ∃ i, ∃ hi : i < l.length,
      (sortScored l).head? = some (l.get ⟨i, hi⟩) ∧
      (∀ j, ∀ hj : j < l.length, (l.get ⟨i, hi⟩).score ≤ (l.get ⟨j, hj⟩).score) ∧
      (∀ j, ∀ hj : j < i, (l.get ⟨i, hi⟩).score < (l.get ⟨j, Nat.lt_trans hj hi⟩).score) := by
  induction l with
  | nil => exact absurd rfl hne
  | cons x xs ih =>
    cases xs with
    | nil =>
      refine ⟨0, by simp, by simp [sortScored, insertScored], ?_, ?_⟩
      · intro j hj
        have hj0 : j = 0 := by simp at hj; omega
        subst hj0
        simp
      · intro j hj
        omega
    | cons y ys =>
      obtain ⟨i, hi, hhead, hmin, hfirst⟩ := ih (by simp)
      have hsort : sortScored (x :: y :: ys) = insertScored x (sortScored (y :: ys)) := rfl
      cases hs : sortScored (y :: ys) with
      | nil => rw [hs] at hhead; simp at hhead
      | cons m t =>
        rw [hs] at hhead
        simp only [List.head?_cons, Option.some_inj] at hhead
        subst hhead
        simp only [List.get_eq_getElem] at hmin hfirst ⊢
        by_cases hxm : x.score ≤ (y :: ys)[i].score
        · refine ⟨0, by simp, ?_, ?_, ?_⟩
          · rw [hsort, hs, insertScored_head]
            simp only [List.get_eq_getElem, List.getElem_cons_zero]
            rw [if_pos (by simpa using hxm)]
          · intro j hj
            cases j with
            | zero => simp
            | succ k =>
              have hk : k < (y :: ys).length := by simp at hj ⊢; omega
              have h2 := hmin k hk
              simp only [List.getElem_cons_zero, List.getElem_cons_succ]
              exact le_trans hxm h2
          · intro j hj
            omega
        · push_neg at hxm
          refine ⟨i + 1, by simp at hi ⊢; omega, ?_, ?_, ?_⟩
          · rw [hsort, hs, insertScored_head]
            simp only [List.get_eq_getElem, List.getElem_cons_succ]
            rw [if_neg (not_le.mpr (by simpa using hxm))]
          · intro j hj
            cases j with
            | zero =>
              simp only [List.getElem_cons_zero, List.getElem_cons_succ]
              exact le_of_lt hxm
            | succ k =>
              have hk : k < (y :: ys).length := by simp at hj ⊢; omega
              have h2 := hmin k hk
              simpa using h2
          · intro j hj
            cases j with
            | zero =>
              simp only [List.getElem_cons_zero, List.getElem_cons_succ]
              exact hxm
            | succ k =>
              have hk : k < i := by omega
              have h3 := hfirst k hk
              simpa using h3

/-- The scored tuples of the eligible rows, in input order. -/
def scoredCandidates (o : Overlay) (rows : List Row) (nlp : Nlp)
    (api : Option (String → Option Rat)) : List Scored :=
  scoredOf o nlp api (apply_hard_filters o rows nlp)

/-- The result is built from the candidate at position i of the scored list,
whose score is minimal over the whole list and strictly below every earlier
candidate's score (the stable tie-break), with the rounded fields. -/
def isStableArgmin (L : List Scored) (o : Overlay) (nlp : Nlp)
    (res : RoutingResult) : Prop :=
  ∃ i, ∃ hi : i < L.length,
    res = mkRoutingResult o nlp (L.get ⟨i, hi⟩) ∧
    res.hospital_name = (L.get ⟨i, hi⟩).row.hospital_name ∧
    res.routing_score = round2 (L.get ⟨i, hi⟩).score ∧
    res.eta_minutes = round1 (L.get ⟨i, hi⟩).eta ∧
    (∀ j, ∀ hj : j < L.length, (L.get ⟨i, hi⟩).score ≤ (L.get ⟨j, hj⟩).score) ∧
    (∀ j, ∀ hj : j < i, (L.get ⟨i, hi⟩).score < (L.get ⟨j, Nat.lt_trans hj hi⟩).score)

/-- C3: the routing entry point returns none exactly when the eligible set is
empty; otherwise the returned result comes from the scored candidate with the
lowest score, ties broken in favor of the earliest input position, with the
score rounded to 2 decimals and the ETA rounded to 1 decimal. -/
theorem claim_get_optimal_hospital (o : Overlay) (rows : List Row) (nlp : Nlp)
    (api : Option (String → Option Rat)) :
    (get_optimal_hospital o rows nlp api = none ↔ apply_hard_filters o rows nlp = []) ∧
    (∀ res, get_optimal_hospital o rows nlp api = some res →
      isStableArgmin (scoredCandidates o rows nlp api) o nlp res) := by
  cases hfil : apply_hard_filters o rows nlp with
  | nil =>
    constructor
    · simp [get_optimal_hospital, hfil]
    · intro res hres
      rw [get_optimal_hospital, hfil] at hres
      simp at hres
  | cons f fs =>
    have hLne : scoredOf o nlp api (f :: fs) ≠ [] := by simp [scoredOf]
    obtain ⟨i, hi, hhead, hmin, hfirst⟩ := sortScored_head_spec (scoredOf o nlp api (f :: fs)) hLne
    cases hsort : sortScored (scoredOf o nlp api (f :: fs)) with
    | nil => exact absurd hsort (sortScored_ne_nil _ hLne)
    | cons b bs =>
      rw [hsort] at hhead
      simp only [List.head?_cons, Option.some_inj] at hhead
      subst hhead
      have hval : get_optimal_hospital o rows nlp api
          = some (mkRoutingResult o nlp ((scoredOf o nlp api (f :: fs)).get ⟨i, hi⟩)) := by
        rw [get_optimal_hospital, hfil]
        dsimp only
        rw [hsort]
      have hsc : scoredCandidates o rows nlp api = scoredOf o nlp api (f :: fs) := by
        rw [scoredCandidates, hfil]
      constructor
      · rw [hval]
        simp
      · intro res hres
        rw [hval, Option.some_inj] at hres
        subst hres
        rw [hsc]
        exact ⟨i, hi, rfl, rfl, rfl, rfl, hmin, hfirst⟩

/-! ## Claim C4: the commit frame property -/

theorem send_patient_none (o : Overlay) (nlp : Nlp) : send_patient o none nlp = o := rfl

theorem send_patient_empty_id (o : Overlay) (nlp : Nlp) :
    send_patient o (some "") nlp = o := by
  unfold send_patient
  simp

theorem send_patient_other (o : Overlay) (nlp : Nlp) (h n : String)
    (hne : h ≠ "") (hn : n ≠ h) : send_patient o (some h) nlp n = o n := by
  unfold send_patient
  simp [hne, hn]

theorem send_patient_self (o : Overlay) (nlp : Nlp) (h : String) (hne : h ≠ "") :
    (overlayGet (send_patient o (some h) nlp) h).ed_beds_delta
        = (overlayGet o h).ed_beds_delta - 1 ∧
    (overlayGet (send_patient o (some h) nlp) h).icu_beds_delta
        = (overlayGet o h).icu_beds_delta - (if getAcuity nlp ≤ 2 then 1 else 0) ∧
    ∀ sp, (overlayGet (send_patient o (some h) nlp) h).specialist_patients_delta sp
        = (overlayGet o h).specialist_patients_delta sp
          + ((get_required_specialties_from_nlp nlp).count sp : Int) := by
  unfold send_patient
  simp only [hne, if_neg, ite_false, reduceIte]
  refine ⟨?_, ?_, ?_⟩ <;>
    · unfold overlayGet
      simp only [hne, reduceIte, if_pos rfl, Option.getD_some]
      split_ifs <;> simp [foldl_bump_apply]

/-- C4: a commit for a non-empty identifier decrements that hospital's ED-bed
delta by exactly 1, decrements its ICU-bed delta by exactly 1 iff acuity is at
most 2, increments its per-specialty patient-count delta once for each
canonical specialty the request requires, and changes no other hospital's
entry and nothing else; with a null or empty identifier the overlay is
unchanged. -/
theorem claim_send_patient_frame (o : Overlay) (nlp : Nlp) (h : String) (hne : h ≠ "") :
    send_patient o none nlp = o ∧
    send_patient o (some "") nlp = o ∧
    (overlayGet (send_patient o (some h) nlp) h).ed_beds_delta
        = (overlayGet o h).ed_beds_delta - 1 ∧
    (overlayGet (send_patient o (some h) nlp) h).icu_beds_delta
        = (overlayGet o h).icu_beds_delta - (if getAcuity nlp ≤ 2 then 1 else 0) ∧
    (∀ sp, (overlayGet (send_patient o (some h) nlp) h).specialist_patients_delta sp
        = (overlayGet o h).specialist_patients_delta sp
          + ((get_required_specialties_from_nlp nlp).count sp : Int)) ∧
    (∀ n, n ≠ h → send_patient o (some h) nlp n = o n) := by
  obtain ⟨hed, hicu, hspd⟩ := send_patient_self o nlp h hne
  exact ⟨send_patient_none o nlp, send_patient_empty_id o nlp, hed, hicu, hspd,
    fun n hn => send_patient_other o nlp h n hne hn⟩

/-- C4 witness: the frame property at a concrete overlay, request and
hospital, with acuity 1 and one required trauma specialty. -/
def w4nlp : Nlp :=
  { acuity_level := some 1, required_specialty := none,
    required_specialties := some ["trauma"] }

theorem claim_send_patient_frame_witness :
    send_patient emptyOverlay none w4nlp = emptyOverlay ∧
    send_patient emptyOverlay (some "") w4nlp = emptyOverlay ∧
    (overlayGet (send_patient emptyOverlay (some "H") w4nlp) "H").ed_beds_delta
        = (overlayGet emptyOverlay "H").ed_beds_delta - 1 ∧
    (overlayGet (send_patient emptyOverlay (some "H") w4nlp) "H").icu_beds_delta
        = (overlayGet emptyOverlay "H").icu_beds_delta
          - (if getAcuity w4nlp ≤ 2 then 1 else 0) ∧
    (∀ sp, (overlayGet (send_patient emptyOverlay (some "H") w4nlp) "H").specialist_patients_delta sp
        = (overlayGet emptyOverlay "H").specialist_patients_delta sp
          + ((get_required_specialties_from_nlp w4nlp).count sp : Int)) ∧
    (∀ n, n ≠ "H" → send_patient emptyOverlay (some "H") w4nlp n = emptyOverlay n) :=
  claim_send_patient_frame emptyOverlay w4nlp "H" (by decide)

/-! ## Claim C6: derived specialties and commit increments -/

/-- A request whose specialty list holds two entries that both map to
Cardiology. -/
def nlpDup : Nlp :=
  { acuity_level := some 3, required_specialty := none,
    required_specialties := some ["cardiac", "heart"] }

/-- C6 counterexample: the derived canonical list keeps duplicates, so one
commit call increments the Cardiology patient-count delta by 2, not at
most 1. -/
theorem claim_required_specialties_counterexample :
    get_required_specialties_from_nlp nlpDup = ["Cardiology", "Cardiology"] ∧
    (overlayGet (send_patient emptyOverlay (some "H") nlpDup) "H").specialist_patients_delta
        "Cardiology" = 2 := by
  constructor
  · rfl
  · rfl

/-- C6 (amended): the derived list contains no unmapped entries (every element
is canonical), but may repeat a canonical category when several entries map to
it; one commit call increments each specialty's patient-count delta by the
number of derived entries equal to it. -/
theorem claim_required_specialties_amended (nlp : Nlp) (o : Overlay) (h sp : String)
    (hne : h ≠ "") :
    (∀ s ∈ get_required_specialties_from_nlp nlp, s ∈ SPECIALTY_NAMES) ∧
    (overlayGet (send_patient o (some h) nlp) h).specialist_patients_delta sp
        = (overlayGet o h).specialist_patients_delta sp
          + ((get_required_specialties_from_nlp nlp).count sp : Int) :=
  ⟨get_required_specialties_canonical nlp, (send_patient_self o nlp h hne).2.2 sp⟩

theorem claim_required_specialties_amended_witness :
    (∀ s ∈ get_required_specialties_from_nlp nlpDup, s ∈ SPECIALTY_NAMES) ∧
    (overlayGet (send_patient emptyOverlay (some "H") nlpDup) "H").specialist_patients_delta
        "Cardiology"
      = (overlayGet emptyOverlay "H").specialist_patients_delta "Cardiology"
        + ((get_required_specialties_from_nlp nlpDup).count "Cardiology" : Int) :=
  claim_required_specialties_amended nlpDup emptyOverlay "H" "Cardiology" (by decide)

/-! ## Claim C5: the two specialty keyword maps -/

/-- C5 counterexample: the two functions do not share one priority order.
On a string matching both cardiac and trauma keywords the mapper picks
Cardiology (cardiac first) while the filter requires trauma (trauma first);
and a string matching only the neuro keyword maps to Neurology while the
filter requires nothing, since its stroke rule has no neuro keyword. -/
theorem claim_specialty_maps_counterexample :
    nlp_specialty_to_column (some "cardiac trauma") = some "Cardiology" ∧
    specialty_requires_capability (some "cardiac trauma") = some "trauma" ∧
    nlp_specialty_to_column (some "neurology") = some "Neurology" ∧
    specialty_requires_capability (some "neurology") = none := by
  refine ⟨?_, ?_, ?_, ?_⟩ <;> decide

/-- C5 (amended): for a specialty string with no pediatric keyword, the two
maps agree as the claim states provided the string does not match cardiac
keywords together with trauma or stroke (the filter puts trauma and stroke
before cardiac) and does not contain neuro without stroke or a
higher-priority keyword (the filter's stroke rule has no neuro keyword). -/
theorem claim_specialty_maps_amended (s : String)
    (hped1 : hasKw "pediatric" (lowerStr s) = false)
    (hped2 : hasKw "peds" (lowerStr s) = false)
    (hpri : (hasKw "cardiac" (lowerStr s) || hasKw "stemi" (lowerStr s)
        || hasKw "heart" (lowerStr s)) = true →
        hasKw "trauma" (lowerStr s) = false ∧ hasKw "stroke" (lowerStr s) = false)
    (hneu : hasKw "neuro" (lowerStr s) = true →
        (hasKw "cardiac" (lowerStr s) || hasKw "stemi" (lowerStr s)
          || hasKw "heart" (lowerStr s) || hasKw "trauma" (lowerStr s)
          || hasKw "stroke" (lowerStr s)) = true) :
    (nlp_specialty_to_column (some s) = some "Cardiology"
        ↔ specialty_requires_capability (some s) = some "cardiac") ∧
    (nlp_specialty_to_column (some s) = some "Trauma"
        ↔ specialty_requires_capability (some s) = some "trauma") ∧
    (nlp_specialty_to_column (some s) = some "Neurology"
        ↔ specialty_requires_capability (some s) = some "stroke") ∧
    (nlp_specialty_to_column (some s) = none
        ↔ specialty_requires_capability (some s) = none) := by
  unfold nlp_specialty_to_column specialty_requires_capability
  dsimp only
  split_ifs <;> simp_all

/-- C5 witness: the amended agreement at the concrete string heart. -/
theorem claim_specialty_maps_amended_witness :
    (nlp_specialty_to_column (some "heart") = some "Cardiology"
        ↔ specialty_requires_capability (some "heart") = some "cardiac") ∧
    (nlp_specialty_to_column (some "heart") = some "Trauma"
        ↔ specialty_requires_capability (some "heart") = some "trauma") ∧
    (nlp_specialty_to_column (some "heart") = some "Neurology"
        ↔ specialty_requires_capability (some "heart") = some "stroke") ∧
    (nlp_specialty_to_column (some "heart") = none
        ↔ specialty_requires_capability (some "heart") = none) :=
  claim_specialty_maps_amended "heart" (by decide) (by decide)
    (fun _ => by constructor <;> decide) (by decide)

/-! ## Claim C7: ED-bed monotonicity of the score -/

/-- A hospital row with every optional field absent, used as a concrete
instance base. -/
def baseRow : Row :=
  { hospital_name := "H", ed_diversion_sim := none, trauma_level := none,
    stroke_center_level := none, cardiac_cath_lab := none, pediatric_specialty := none,
    available_icu_beds_sim := none, available_ed_beds_sim := none, er_wait_min_sim := none,
    on_call_ed_physicians_sim := none, ambulance_travel_time_min_sim := none,
    latitude := none, longitude := none,
    specialists := fun _ => none, specialist_patients := fun _ => none }

/-- A request with no specialty and default acuity. -/
def basicNlp : Nlp :=
  { acuity_level := none, required_specialty := none, required_specialties := none }

/-- An overlay whose only entry puts ED-bed delta -10 on hospital H. -/
def ov7 : Overlay := fun n =>
  if n = "H"
  then some { ed_beds_delta := -10, icu_beds_delta := 0,
              specialist_patients_delta := fun _ => 0 }
  else none

/-- C7 counterexample: with overlay ED delta -10, raising the ED-beds field
from 1 to 2 leaves the clamped term max(0, beds + delta) at 0, so the score
does not strictly decrease. -/
theorem claim_ed_monotonicity_counterexample :
    { baseRow with available_ed_beds_sim := some 2 }
        = { { baseRow with available_ed_beds_sim := some 1 }
            with available_ed_beds_sim := some 2 } ∧
    ¬ (score_hospital ov7 { baseRow with available_ed_beds_sim := some 2 } 10 basicNlp
        < score_hospital ov7 { baseRow with available_ed_beds_sim := some 1 } 10 basicNlp) := by
  refine ⟨rfl, ?_⟩
  have h2 : score_hospital ov7 { baseRow with available_ed_beds_sim := some 2 } 10 basicNlp
      = 10 := by
    rw [score_hospital_eq_formula]
    norm_num [num, overlayGet, ov7, getAcuity, basicNlp, baseRow, nlp_specialty_to_column,
      emptyEntry, max_def]
  have h1 : score_hospital ov7 { baseRow with available_ed_beds_sim := some 1 } 10 basicNlp
      = 10 := by
    rw [score_hospital_eq_formula]
    norm_num [num, overlayGet, ov7, getAcuity, basicNlp, baseRow, nlp_specialty_to_column,
      emptyEntry, max_def]
  rw [h1, h2]
  exact lt_irrefl 10

/-- C7 (amended): strictly increasing the available ED beds field strictly
decreases the score provided the increased value plus the overlay ED delta is
positive (the code clamps the adjusted beds at zero, so below that the score
is unchanged). -/
theorem claim_ed_monotonicity_amended (o : Overlay) (row : Row) (nlp : Nlp)
    (eta b1 b2 : Rat)
    (hb : row.available_ed_beds_sim = some b1) (hlt : b1 < b2)
    (hpos : 0 < b2 + ((overlayGet o row.hospital_name).ed_beds_delta : Rat)) :
    score_hospital o { row with available_ed_beds_sim := some b2 } eta nlp
      < score_hospital o row eta nlp := by
  rw [score_hospital_eq_formula, score_hospital_eq_formula]
  have hmax : max 0 (num row.available_ed_beds_sim
      + ((overlayGet o row.hospital_name).ed_beds_delta : Rat))
      < max 0 (num ({ row with available_ed_beds_sim := some b2 } : Row).available_ed_beds_sim
          + ((overlayGet o row.hospital_name).ed_beds_delta : Rat)) := by
    have h2 : num ({ row with available_ed_beds_sim := some b2 } : Row).available_ed_beds_sim = b2 := rfl
    rw [h2, hb]
    have hb2 : max 0 (b2 + ((overlayGet o row.hospital_name).ed_beds_delta : Rat))
        = b2 + ((overlayGet o row.hospital_name).ed_beds_delta : Rat) :=
      max_eq_right (le_of_lt hpos)
    rw [hb2]
    rcases le_or_lt (num (some b1) + ((overlayGet o row.hospital_name).ed_beds_delta : Rat)) 0 with hle | hgt
    · rw [max_eq_left hle]
      exact hpos
    · rw [max_eq_right (le_of_lt hgt)]
      have : num (some b1) = b1 := rfl
      rw [this]
      exact add_lt_add_right hlt _
  have hsame : (match nlp_specialty_to_column nlp.required_specialty with
      | none => (0 : Rat)
      | some sp =>
        match get_specialist_load o ({ row with available_ed_beds_sim := some b2 } : Row)
            (some sp) ({ row with available_ed_beds_sim := some b2 } : Row).hospital_name with
        | none => if getAcuity nlp ≤ 2 then 500 else 0
        | some load => 20 * load)
      = (match nlp_specialty_to_column nlp.required_specialty with
      | none => (0 : Rat)
      | some sp =>
        match get_specialist_load o row (some sp) row.hospital_name with
        | none => if getAcuity nlp ≤ 2 then 500 else 0
        | some load => 20 * load) := rfl
  rw [hsame]
  have hicu : (num ({ row with available_ed_beds_sim := some b2 } : Row).available_icu_beds_sim
      + ((overlayGet o ({ row with available_ed_beds_sim := some b2 } : Row).hospital_name).icu_beds_delta : Rat))
      = (num row.available_icu_beds_sim
        + ((overlayGet o row.hospital_name).icu_beds_delta : Rat)) := rfl
  have her : num ({ row with available_ed_beds_sim := some b2 } : Row).er_wait_min_sim
      = num row.er_wait_min_sim := rfl
  have hph : num ({ row with available_ed_beds_sim := some b2 } : Row).on_call_ed_physicians_sim
      = num row.on_call_ed_physicians_sim := rfl
  have hnm : ({ row with available_ed_beds_sim := some b2 } : Row).hospital_name
      = row.hospital_name := rfl
  rw [hicu, her, hph, hnm]
  have hlin : ∀ x y a b c d : Rat, x < y →
      a + b - 2 * y - c + d < a + b - 2 * x - c + d := by
    intro x y a b c d hxy
    linarith
  have := hlin _ _ (1 * eta) ((1 / 2) * num row.er_wait_min_sim)
    ((3 / 10) * num row.on_call_ed_physicians_sim)
    ((if getAcuity nlp ≤ 2 ∧ num row.available_icu_beds_sim
        + ((overlayGet o row.hospital_name).icu_beds_delta : Rat) ≤ 1
      then (50 : Rat) else 0)) hmax
  linarith

/-- The monotonicity witness row: one available ED bed, empty overlay. -/
def row7w : Row := { baseRow with available_ed_beds_sim := some 1 }

theorem claim_ed_monotonicity_amended_witness :
    score_hospital emptyOverlay { row7w with available_ed_beds_sim := some 2 } 5 basicNlp
      < score_hospital emptyOverlay row7w 5 basicNlp :=
  claim_ed_monotonicity_amended emptyOverlay row7w basicNlp 5 1 2 rfl (by norm_num)
    (by norm_num [overlayGet, emptyOverlay, emptyEntry])

/-! ## Claim C8: the specialist load calculator -/

/-- C8 (amended): the load is null exactly when the specialty is unset, not
canonical, or the specialist count is zero, negative, or absent (a missing or
unparseable count coerces to 0); otherwise it is the zero-floored patient
count (base plus overlay delta) divided by the positive specialist count, a
non-negative number, so the division never has a zero divisor. -/
theorem claim_specialist_load (o : Overlay) (row : Row) (s : String) (h : String) :
    get_specialist_load o row none h = none ∧
    (get_specialist_load o row (some s) h = none
        ↔ s ∉ SPECIALTY_NAMES ∨ num (row.specialists s) ≤ 0) ∧
    (∀ l, get_specialist_load o row (some s) h = some l →
      0 < num (row.specialists s) ∧
      l = max 0 (num (row.specialist_patients s)
            + ((overlayGet o h).specialist_patients_delta s : Rat))
          / num (row.specialists s) ∧
      0 ≤ l) := by
  refine ⟨rfl, ?_, ?_⟩
  · unfold get_specialist_load
    by_cases hmem : s ∈ SPECIALTY_NAMES
    · simp only [hmem, if_true]
      by_cases hdoc : num (row.specialists s) ≤ 0
      · simp [hdoc, hmem]
      · simp [hdoc, hmem]
    · simp [hmem]
  · intro l hl
    unfold get_specialist_load at hl
    by_cases hmem : s ∈ SPECIALTY_NAMES
    · simp only [hmem, if_true] at hl
      by_cases hdoc : num (row.specialists s) ≤ 0
      · simp [hdoc] at hl
      · simp only [hdoc, if_false, Option.some_inj, ite_false, reduceIte] at hl
        push_neg at hdoc
        refine ⟨hdoc, hl.symm, ?_⟩
        rw [← hl]
        exact div_nonneg (le_max_left 0 _) (le_of_lt hdoc)
    · simp [hmem] at hl

/-- The load witness row: two cardiologists with three base patients. -/
def row8 : Row :=
  { baseRow with
    specialists := fun c => if c = "Cardiology" then some 2 else none,
    specialist_patients := fun c => if c = "Cardiology" then some 3 else none }

theorem claim_specialist_load_witness :
    0 < num (row8.specialists "Cardiology") ∧
    (3 / 2 : Rat) = max 0 (num (row8.specialist_patients "Cardiology")
        + ((overlayGet emptyOverlay "H").specialist_patients_delta "Cardiology" : Rat))
      / num (row8.specialists "Cardiology") ∧
    (0 : Rat) ≤ 3 / 2 :=
  (claim_specialist_load emptyOverlay row8 "Cardiology" "H").2.2 (3 / 2) (by
    unfold get_specialist_load
    norm_num [SPECIALTY_NAMES, num, row8, baseRow, overlayGet, emptyOverlay, emptyEntry, max_def])

/-- The row of the load counterexample: a negative Cardiology specialist
count. -/
def row8neg : Row :=
  { baseRow with specialists := fun c => if c = "Cardiology" then some (-1) else none }

/-- C8 counterexample: with a present, non-zero (negative) specialist count
the code still returns null, so null is not returned exactly when the count
is zero or absent as the claim states. -/
theorem claim_specialist_load_counterexample :
    get_specialist_load emptyOverlay row8neg (some "Cardiology") "H" = none ∧
    row8neg.specialists "Cardiology" = some (-1) ∧
    ¬ ("Cardiology" ∉ SPECIALTY_NAMES ∨ row8neg.specialists "Cardiology" = none ∨
        num (row8neg.specialists "Cardiology") = 0) := by
  refine ⟨rfl, rfl, ?_⟩
  intro hcon
  rcases hcon with hmem | hnone | hzero
  · exact hmem (by decide)
  · exact Option.noConfusion hnone
  · exact absurd hzero (by decide)

/-! ## Claim C9: commit pushes a marginal hospital out -/

/-- C9: a hospital with exactly one available ICU bed and a zero overlay ICU
delta is excluded by the hard filter for a critical request after one commit
of a critical patient to it: its adjusted ICU availability becomes 0. -/
theorem claim_commit_margin_excludes (o : Overlay) (rows : List Row) (row : Row)
    (nlp1 nlp2 : Nlp)
    (hname : row.hospital_name ≠ "")
    (hicu : num row.available_icu_beds_sim = 1)
    (hdelta : (overlayGet o row.hospital_name).icu_beds_delta = 0)
    (hcrit1 : getAcuity nlp1 ≤ 2) (hcrit2 : getAcuity nlp2 ≤ 2) :
    row ∉ apply_hard_filters (send_patient o (some row.hospital_name) nlp1) rows nlp2 := by
  intro hmem
  rw [apply_hard_filters, List.mem_filter] at hmem
  have hpass := hmem.2
  unfold passes_hard_filters at hpass
  dsimp only at hpass
  have hicu2 : (overlayGet (send_patient o (some row.hospital_name) nlp1)
      row.hospital_name).icu_beds_delta = -1 := by
    have h := (send_patient_self o nlp1 row.hospital_name hname).2.1
    rw [h, hdelta, if_pos hcrit1]
    decide
  rw [hicu2, hicu] at hpass
  have hzero : (1 : Rat) + ((-1 : Int) : Rat) ≤ 0 := by norm_num
  split_ifs at hpass with h1 h2

/-- A critical request (acuity 1) with no specialty. -/
def nlp9 : Nlp :=
  { acuity_level := some 1, required_specialty := none, required_specialties := none }

/-- The marginal hospital: exactly one available ICU bed. -/
def row9 : Row := { baseRow with available_icu_beds_sim := some 1 }

theorem claim_commit_margin_excludes_witness :
    row9 ∉ apply_hard_filters (send_patient emptyOverlay (some row9.hospital_name) nlp9)
      [row9] nlp9 :=
  claim_commit_margin_excludes emptyOverlay [row9] row9 nlp9 nlp9
    (by decide) rfl rfl (by decide) (by decide)

/-! ## Claim C10: only the singular specialty field drives filter and score -/

/-- The hard-filter keep test with no capability conjunct at all, per
claim C10. -/
def passes_no_capability (o : Overlay) (nlp : Nlp) (row : Row) : Bool :=
  if stripLower row.ed_diversion_sim = "yes".data then false
  else if getAcuity nlp ≤ 2 then
    if num row.available_icu_beds_sim
        + ((overlayGet o row.hospital_name).icu_beds_delta : Rat) ≤ 0
    then false else true
  else true

/-- The score with no specialist-load term and no no-specialist penalty, per
claim C10. -/
def score_no_specialist (o : Overlay) (row : Row) (eta : Rat) (nlp : Nlp) : Rat :=
  1 * eta + (1 / 2) * num row.er_wait_min_sim
    - 2 * max 0 (num row.available_ed_beds_sim
        + ((overlayGet o row.hospital_name).ed_beds_delta : Rat))
    - (3 / 10) * num row.on_call_ed_physicians_sim
    + (if getAcuity nlp ≤ 2 ∧
          num row.available_icu_beds_sim
            + ((overlayGet o row.hospital_name).icu_beds_delta : Rat) ≤ 1
       then 50 else 0)

/-- C10: when the singular required_specialty field is absent or unmapped by
both keyword maps, the hard filter applies no capability exclusion and the
score carries no specialist-load term and no no-specialist penalty, even if a
required_specialties list is supplied; the commit operation nevertheless uses
that list to increment the per-specialty patient-count deltas. -/
theorem claim_singular_specialty_only (o : Overlay) (rows : List Row) (nlp : Nlp)
    (row : Row) (eta : Rat) (l : List String) (h sp : String)
    (hcap : specialty_requires_capability nlp.required_specialty = none)
    (hcol : nlp_specialty_to_column nlp.required_specialty = none)
    (hlist : nlp.required_specialties = some l) (hne : h ≠ "") :
    apply_hard_filters o rows nlp = rows.filter (passes_no_capability o nlp) ∧
    score_hospital o row eta nlp = score_no_specialist o row eta nlp ∧
    (overlayGet (send_patient o (some h) nlp) h).specialist_patients_delta sp
      = (overlayGet o h).specialist_patients_delta sp
        + (((l.map (fun x => nlp_specialty_to_column (some x))).filterMap id).count sp : Int) := by
  refine ⟨?_, ?_, ?_⟩
  · unfold apply_hard_filters
    apply List.filter_congr
    intro r _
    unfold passes_hard_filters passes_no_capability
    rw [hcap]
    rfl
  · rw [score_hospital_eq_formula, hcol]
    unfold score_no_specialist
    exact add_zero _
  · have hc := (send_patient_self o nlp h hne).2.2 sp
    rw [hc]
    congr 1
    congr 1
    simp only [get_required_specialties_from_nlp, hlist]

/-- The C10 witness request: no singular specialty, a one-element list. -/
def nlp10 : Nlp :=
  { acuity_level := some 3, required_specialty := none,
    required_specialties := some ["cardiac"] }

theorem claim_singular_specialty_only_witness :
    apply_hard_filters emptyOverlay [baseRow] nlp10
        = [baseRow].filter (passes_no_capability emptyOverlay nlp10) ∧
    score_hospital emptyOverlay baseRow 7 nlp10
        = score_no_specialist emptyOverlay baseRow 7 nlp10 ∧
    (overlayGet (send_patient emptyOverlay (some "H") nlp10) "H").specialist_patients_delta
        "Cardiology"
      = (overlayGet emptyOverlay "H").specialist_patients_delta "Cardiology"
        + (((["cardiac"].map (fun x => nlp_specialty_to_column (some x))).filterMap id).count
            "Cardiology" : Int) :=
  claim_singular_specialty_only emptyOverlay [baseRow] nlp10 baseRow 7 ["cardiac"] "H"
    "Cardiology" rfl rfl rfl (by decide)

/-! ## Remaining witnesses for C2 and C3 -/

theorem claim_hard_filters_witness :
    stripLower baseRow.ed_diversion_sim ≠ "yes".data :=
  (claim_hard_filters emptyOverlay [baseRow] basicNlp).2 baseRow
    (show baseRow ∈ apply_hard_filters emptyOverlay [baseRow] basicNlp from by
      rw [show apply_hard_filters emptyOverlay [baseRow] basicNlp = [baseRow] from rfl]
      exact List.mem_singleton.mpr rfl)

theorem claim_get_optimal_hospital_witness :
    isStableArgmin (scoredCandidates emptyOverlay [baseRow] basicNlp none)
      emptyOverlay basicNlp
      (mkRoutingResult emptyOverlay basicNlp (mkScored emptyOverlay basicNlp none baseRow)) :=
  (claim_get_optimal_hospital emptyOverlay [baseRow] basicNlp none).2 _ rfl
